import Mathlib

/-!
Verification development for the flamapy-mcp analysis operations.

The repository's two source files (`src/flamapy_mcp/__main__.py`, `src/main.py`)
are transport wrappers over a Feature Model Analysis Engine whose behaviour is
fixed by the specification (spec sections 3, 4).  The engine itself is not part
of `src/`, so its semantics are modelled here from the specification's words;
each such definition is marked `Modelled from the spec:`.  The wrapper logic
(rounding, error rewrapping, result filtering, argument choices) is translated
directly from the Python sources.
-/

namespace FM

/-- Modelled from the spec: the group constructs of the feature tree
(spec section 3): a child relation is Mandatory or Optional, or the children
form an or-group or an alternative-group. -/
inductive GroupKind where
  | mandatory
  | optional
  | orGroup
  | altGroup
deriving DecidableEq

/-- Modelled from the spec: one group construct of the tree — a parent feature
identifier, the kind, and the ordered children it governs (spec section 3). -/
structure Group where
  parent : String
  kind : GroupKind
  children : List String
deriving DecidableEq

/-- Modelled from the spec: boolean cross-tree constraint expressions over
feature identifiers, built from AND, OR, NOT, IMPLIES, XOR, EQUIV
(spec section 3). -/
inductive BExpr where
  | var (f : String)
  | not (a : BExpr)
  | and (a b : BExpr)
  | or (a b : BExpr)
  | imp (a b : BExpr)
  | xor (a b : BExpr)
  | equiv (a b : BExpr)
deriving DecidableEq

/-- Modelled from the spec: the UVL shorthand requires(a, b), desugared to
IMPLIES (spec section 3). -/
def requiresC (a b : String) : BExpr := BExpr.imp (BExpr.var a) (BExpr.var b)

/-- Modelled from the spec: the UVL shorthand excludes(a, b), desugared to
a implies (NOT b) (spec section 3). -/
def excludesC (a b : String) : BExpr := BExpr.imp (BExpr.var a) (BExpr.not (BExpr.var b))

/-- Modelled from the spec: a Model is the root feature, the full ordered list
of feature identifiers, the tree's group constructs and the sequence of
cross-tree constraints (spec section 3). -/
structure Model where
  root : String
  features : List String
  groups : List Group
  constraints : List BExpr
deriving DecidableEq

/-- Evaluate a constraint expression under a boolean valuation of features. -/
def evalB (v : String → Bool) : BExpr → Bool
  | BExpr.var f => v f
  | BExpr.not a => !(evalB v a)
  | BExpr.and a b => evalB v a && evalB v b
  | BExpr.or a b => evalB v a || evalB v b
  | BExpr.imp a b => !(evalB v a) || evalB v b
  | BExpr.xor a b => evalB v a != evalB v b
  | BExpr.equiv a b => evalB v a == evalB v b

/-- At most one `true` in a list of booleans (pairwise mutual exclusion of an
alternative-group, spec section 4.1). -/
def atMostOne (l : List Bool) : Bool := decide (l.count true ≤ 1)

/-- Modelled from the spec: the encoding rule of one group construct
(spec section 4.1): mandatory child f of p gives f iff p; optional child gives
f implies p; an or-group gives p iff (some child) plus each child implies p;
an alternative-group adds pairwise mutual exclusion. -/
def groupOK (v : String → Bool) (g : Group) : Bool :=
  match g.kind with
  | GroupKind.mandatory => g.children.all (fun c => v c == v g.parent)
  | GroupKind.optional => g.children.all (fun c => !(v c) || v g.parent)
  | GroupKind.orGroup =>
      (v g.parent == g.children.any v) && g.children.all (fun c => !(v c) || v g.parent)
  | GroupKind.altGroup =>
      (v g.parent == g.children.any v) && g.children.all (fun c => !(v c) || v g.parent)
        && atMostOne (g.children.map v)

/-- Modelled from the spec: a valuation is a valid configuration when the root
is selected, every group construct's encoding holds and every cross-tree
constraint evaluates to true (spec sections 3, 4.1). -/
def validOn (M : Model) (v : String → Bool) : Bool :=
  v M.root && M.groups.all (groupOK v) && M.constraints.all (evalB v)

/-- All boolean lists of a given length (the total assignments over an ordered
variable list). -/
def boolLists : Nat → List (List Bool)
  | 0 => [[]]
  | n + 1 =>
      (boolLists n).map (fun bs => false :: bs) ++ (boolLists n).map (fun bs => true :: bs)

/-- The valuation induced by pairing the model's ordered feature list with a
boolean list; features outside the list read false. -/
def assign (M : Model) (bs : List Bool) (f : String) : Bool :=
  ((M.features.zip bs).lookup f).getD false

/-- Modelled from the spec: enumeration of the valid configurations of a Model,
as the boolean lists over its feature list whose induced valuation satisfies
the formula (spec section 3, Configuration). -/
def validConfigs (M : Model) : List (List Bool) :=
  (boolLists M.features.length).filter (fun bs => validOn M (assign M bs))

/-- Modelled from the spec: the SAT oracle on the base formula — the facade
operation behind the `satisfiability` tool (`__main__.py` lines 312-321,
spec section 4.2): Sat exactly when some total assignment is valid. -/
def satisfiabilityTool (M : Model) : Bool :=
  (boolLists M.features.length).any (fun bs => validOn M (assign M bs))

/-- Modelled from the spec: exact model count, the engine behind the
`configurations_number` tool (`__main__.py` lines 154-163, spec section 4.3). -/
def configurationsNumber (M : Model) : Nat :=
  (validConfigs M).length

/-- Modelled from the spec: the SAT oracle with assumptions — solve the base
formula under assumption literals fixing named features to given values
(spec section 4.2). -/
def satAssuming (M : Model) (asm : List (String × Bool)) : Bool :=
  (boolLists M.features.length).any
    (fun bs => validOn M (assign M bs) && asm.all (fun p => assign M bs p.1 == p.2))

/-- Modelled from the spec: assumption-restricted exact count — the number of
valid total assignments consistent with the assumptions (spec section 4.3). -/
def countAssuming (M : Model) (asm : List (String × Bool)) : Nat :=
  ((validConfigs M).filter (fun bs => asm.all (fun p => assign M bs p.1 == p.2))).length

/-- Variables mentioned by a constraint expression. -/
def bexprVars : BExpr → List String
  | BExpr.var f => [f]
  | BExpr.not a => bexprVars a
  | BExpr.and a b => bexprVars a ++ bexprVars b
  | BExpr.or a b => bexprVars a ++ bexprVars b
  | BExpr.imp a b => bexprVars a ++ bexprVars b
  | BExpr.xor a b => bexprVars a ++ bexprVars b
  | BExpr.equiv a b => bexprVars a ++ bexprVars b

/-- Modelled from the spec: structural well-formedness of a Model
(spec section 3): unique identifiers, the root among the features, group
parents and children declared, mandatory/optional constructs govern a single
child, and constraints reference only declared features. -/
def wellFormed (M : Model) : Bool :=
  M.features.contains M.root
    && M.features.all (fun f => M.features.count f == 1)
    && M.groups.all (fun g =>
        M.features.contains g.parent
          && g.children.all (fun c => M.features.contains c)
          && (match g.kind with
              | GroupKind.mandatory => g.children.length == 1
              | GroupKind.optional => g.children.length == 1
              | _ => true))
    && M.constraints.all (fun c => (bexprVars c).all (fun x => M.features.contains x))

/-- Python's builtin round to an integer (banker's rounding: ties go to the
even integer), modelled on exact rationals. -/
def rndHalfEven (q : ℚ) : ℤ :=
  let n : ℤ := ⌊q⌋
  let r : ℚ := q - n
  if r < 1 / 2 then n
  else if 1 / 2 < r then n + 1
  else if n % 2 = 0 then n else n + 1

/-- Python's `round(x, k)` for `k` decimal places, modelled on exact
rationals. -/
def roundTo (k : Nat) (q : ℚ) : ℚ :=
  (rndHalfEven (q * 10 ^ k) : ℚ) / 10 ^ k

/-- Modelled from the spec: feature inclusion probability of a named feature —
count under the assumption the feature is selected, divided by the
unconstrained count (spec section 4.3). -/
def fipEngine (M : Model) (f : String) : ℚ :=
  (countAssuming M [(f, true)] : ℚ) / (configurationsNumber M : ℚ)

/-- The `feature_inclusion_probability` tool (`__main__.py` lines 234-243):
each engine probability is returned rounded to 4 decimal places. -/
def fipTool (M : Model) (f : String) : ℚ :=
  roundTo 4 (fipEngine M f)

/-- The number of valid configurations of `M` in which feature `f` is
selected. -/
def numSelecting (M : Model) (f : String) : Nat :=
  ((validConfigs M).filter (fun bs => assign M bs f)).length

/-- Modelled from the spec: commonality of a named feature expressed as a
percentage, the 0-100 scale (spec sections 4.3 and glossary). -/
def commonalityPercentSpec (M : Model) (f : String) : ℚ :=
  100 * fipEngine M f

/-- The `commonality` tool (`__main__.py` lines 112-134): looks the feature up
in the engine's inclusion-probability map (None when absent, raised as an
error) and returns the probability rounded to 2 decimal places. -/
def commonalityTool (M : Model) (f : String) : Option ℚ :=
  if M.features.contains f then some (roundTo 2 (fipEngine M f)) else none

/-- Modelled from the spec: sampling enumerates valid configurations until `n`
distinct ones are found or the space is exhausted; a void model yields the
empty sequence (spec section 4.4; `__main__.py` lines 298-309 map the void
case to an empty list). -/
def samplingTool (M : Model) (n : Nat) : List (List Bool) :=
  (validConfigs M).take n

/-- Modelled from the spec: core-feature test — `f` is core iff assuming
not-`f` yields Unsat (spec section 4.2). -/
def isCore (M : Model) (f : String) : Bool :=
  !(satAssuming M [(f, false)])

/-- Modelled from the spec: dead-feature test — `f` is dead iff assuming `f`
yields Unsat (spec section 4.2). -/
def isDead (M : Model) (f : String) : Bool :=
  !(satAssuming M [(f, true)])

/-- Modelled from the spec: the `core_features` tool (`__main__.py` lines
166-174) lists the features passing the core test. -/
def coreFeatures (M : Model) : List String :=
  M.features.filter (fun f => isCore M f)

/-- Modelled from the spec: the `dead_features` tool (`__main__.py` lines
189-197) lists the features passing the dead test. -/
def deadFeatures (M : Model) : List String :=
  M.features.filter (fun f => isDead M f)

/-- Modelled from the spec: the `variant_features` tool (`__main__.py` lines
377-385) lists the features that are neither core nor dead
(spec section 4.7). -/
def variantFeatures (M : Model) : List String :=
  M.features.filter (fun f => !(isCore M f) && !(isDead M f))

/-- Modelled from the spec: the engine operation behind the
`satisfiable_configuration` facade call — fix the selected features to true;
when `full` is true the configuration is closed, fixing every unmentioned
feature to false, otherwise the unmentioned features are left free
(spec section 4.2). -/
def satisfiableConfigurationEngine (M : Model) (sel : List String) (full : Bool) : Bool :=
  if full then validOn M (fun f => sel.contains f)
  else satAssuming M (sel.map (fun f => (f, true)))

/-- The `satisfiable_configuration` tool (`__main__.py` lines 324-346): the
selected features are written as `feature,True` lines and the facade is called
with the full-configuration flag set to `False`. -/
def satisfiableConfigurationTool (M : Model) (sel : List String) : Bool :=
  satisfiableConfigurationEngine M sel false

/-- The behaviour asserted by the specification sentence for a closed
configuration: every unmentioned feature fixed to false and the resulting
total assignment checked against the formula.  Stated from the spec's words,
for comparison with `satisfiableConfigurationTool`. -/
def satisfiableConfigurationClosedSpec (M : Model) (sel : List String) : Bool :=
  validOn M (fun f => sel.contains f)

/-- Modelled from the spec: a group construct's combinatorial choice count —
mandatory child 1, optional child 2, or-group of k children 2 ^ k - 1,
alternative-group of k children k (spec section 4.3). -/
def groupChoiceCount (g : Group) : Nat :=
  match g.kind with
  | GroupKind.mandatory => 1
  | GroupKind.optional => 2
  | GroupKind.orGroup => 2 ^ g.children.length - 1
  | GroupKind.altGroup => g.children.length

/-- Modelled from the spec: the `estimated_number_of_configurations` tool
(`__main__.py` lines 200-209) — the running product of the choice counts of
the tree's group constructs, never consulting the constraints
(spec section 4.3). -/
def estimatedNumberOfConfigurations (M : Model) : Nat :=
  M.groups.foldl (fun acc g => acc * groupChoiceCount g) 1

/-- A Python exception value: its class and its message. -/
structure PyError where
  kind : String
  msg : String
deriving DecidableEq

/-- `_run_facade_operation` / `_run_framework_operation` error handling
(`__main__.py` lines 50-61 and 64-86): any exception from the operation is
caught and re-raised as a generic `Exception` whose message prepends
`Error executing <operation>: ` to the original message. -/
def runFacadeOperation {A : Type} (op : String) (r : Except PyError A) : Except PyError A :=
  match r with
  | Except.ok a => Except.ok a
  | Except.error e =>
      Except.error { kind := "Exception", msg := "Error executing " ++ op ++ ": " ++ e.msg }

/-- The per-tool catch block (for example `__main__.py` lines 125-134): any
exception is caught and re-raised as a generic `Exception` whose message
prepends the tool's failure text to the caught message. -/
def toolCatch {A : Type} (tm : String) (r : Except PyError A) : Except PyError A :=
  match r with
  | Except.ok a => Except.ok a
  | Except.error e => Except.error { kind := "Exception", msg := tm ++ ": " ++ e.msg }

/-- An element of the sequence returned by the facade `configurations`
operation: either a Configuration carrying its feature-to-boolean mapping, or
a value of any other Python type. -/
inductive PyValue where
  | config (elements : List (String × Bool))
  | other (tag : String)
deriving DecidableEq

/-- The `configurations` tool's result loop (`__main__.py` lines 141-151): it
appends `config.elements` for each element that is a Configuration instance
and skips every other element. -/
def configurationsTool (res : List PyValue) : List (List (String × Bool)) :=
  res.foldl
    (fun acc v =>
      match v with
      | PyValue.config es => acc ++ [es]
      | PyValue.other _ => acc)
    []

/-- The post-processing of the `average_branching_factor` tool
(`__main__.py` line 107): round the engine value to 2 decimal places. -/
def abfRound (r : ℚ) : ℚ := roundTo 2 r

/-- The post-processing of the `commonality` tool (`__main__.py` line 132):
round the looked-up probability to 2 decimal places. -/
def commonalityRound (r : ℚ) : ℚ := roundTo 2 r

/-- The post-processing of the `variability` tool (`__main__.py` line 372):
round the ratio to 2 decimal places. -/
def variabilityRound (r : ℚ) : ℚ := roundTo 2 r

/-- The post-processing of the `feature_inclusion_probability` tool
(`__main__.py` line 241): round each probability to 4 decimal places. -/
def fipRound (r : ℚ) : ℚ := roundTo 4 r

/-- The post-processing of the `homogeneity` tool (`__main__.py` line 269):
round the value to 4 decimal places. -/
def homogeneityRound (r : ℚ) : ℚ := roundTo 4 r

/-- A model with a single root feature and nothing else. -/
def mRoot : Model :=
  { root := "r", features := ["r"], groups := [], constraints := [] }

/-- A void model: single root feature with the contradictory constraint
NOT root. -/
def mVoid : Model :=
  { root := "r", features := ["r"], groups := [],
    constraints := [BExpr.not (BExpr.var "r")] }

/-- Root `r` with one optional child `X`. -/
def mOpt : Model :=
  { root := "r", features := ["r", "X"],
    groups := [{ parent := "r", kind := GroupKind.optional, children := ["X"] }],
    constraints := [] }

/-- Root `r` with an alternative-group of three children `A`, `B`, `C`. -/
def mAlt : Model :=
  { root := "r", features := ["r", "A", "B", "C"],
    groups := [{ parent := "r", kind := GroupKind.altGroup, children := ["A", "B", "C"] }],
    constraints := [] }

/-- Root `r` with a mandatory child `m`, an optional child `o`, an or-group
`{p, q}` and an alternative-group `{a, b}`. -/
def mEst : Model :=
  { root := "r", features := ["r", "m", "o", "p", "q", "a", "b"],
    groups :=
      [{ parent := "r", kind := GroupKind.mandatory, children := ["m"] },
       { parent := "r", kind := GroupKind.optional, children := ["o"] },
       { parent := "r", kind := GroupKind.orGroup, children := ["p", "q"] },
       { parent := "r", kind := GroupKind.altGroup, children := ["a", "b"] }],
    constraints := [] }

theorem count_zero_iff_unsat (M : Model) :
    configurationsNumber M = 0 ↔ satisfiabilityTool M = false := by
  rw [configurationsNumber, List.length_eq_zero, validConfigs]
  constructor
  · intro h
    rw [← Bool.not_eq_true, satisfiabilityTool, List.any_eq_true]
    rintro ⟨bs, hmem, hval⟩
    exact List.filter_eq_nil_iff.mp h bs hmem hval
  · intro h
    rw [List.filter_eq_nil_iff]
    intro bs hmem hval
    rw [← Bool.not_eq_true, satisfiabilityTool, List.any_eq_true] at h
    exact h ⟨bs, hmem, hval⟩

/-- C1: for every well-formed Model, the `configurations_number` tool returns
a non-negative integer, and it returns 0 exactly when the `satisfiability`
tool returns false. -/
theorem configurations_number_nonneg_and_zero_iff_unsat (M : Model)
    (h : wellFormed M = true) :
    (0 : ℤ) ≤ (configurationsNumber M : ℤ) ∧
      (configurationsNumber M = 0 ↔ satisfiabilityTool M = false) :=
  ⟨by positivity, count_zero_iff_unsat M⟩

/-- C1 witness: the theorem instantiated at the optional-child model. -/
theorem configurations_number_nonneg_and_zero_iff_unsat_witness :
    wellFormed mOpt = true ∧
      ((0 : ℤ) ≤ (configurationsNumber mOpt : ℤ) ∧
        (configurationsNumber mOpt = 0 ↔ satisfiabilityTool mOpt = false)) :=
  ⟨by decide, configurations_number_nonneg_and_zero_iff_unsat mOpt (by decide)⟩

/-- C2: on a Model whose base formula is unsatisfiable, sampling returns the
empty sequence of configurations. -/
theorem sampling_void_model_empty (M : Model) (n : Nat)
    (h : satisfiabilityTool M = false) :
    samplingTool M n = [] := by
  have h0 : configurationsNumber M = 0 := (count_zero_iff_unsat M).mpr h
  have hnil : validConfigs M = [] := by
    rw [configurationsNumber, List.length_eq_zero] at h0
    exact h0
  rw [samplingTool, hnil, List.take_nil]

/-- C2 witness: the theorem instantiated at the contradictory one-feature
model. -/
theorem sampling_void_model_empty_witness :
    satisfiabilityTool mVoid = false ∧ samplingTool mVoid 5 = [] :=
  ⟨by decide, sampling_void_model_empty mVoid 5 (by decide)⟩

theorem mem_validConfigs_iff (M : Model) (bs : List Bool) :
    bs ∈ validConfigs M ↔
      bs ∈ boolLists M.features.length ∧ validOn M (assign M bs) = true := by
  rw [validConfigs]
  exact List.mem_filter

theorem satAssuming_single_true (M : Model) (f : String) (bs : List Bool)
    (hmem : bs ∈ boolLists M.features.length) (hval : validOn M (assign M bs) = true)
    (hf : assign M bs f = true) :
    satAssuming M [(f, true)] = true := by
  rw [satAssuming, List.any_eq_true]
  exact ⟨bs, hmem, by simp [hval, hf]⟩

theorem satAssuming_single_false (M : Model) (f : String) (bs : List Bool)
    (hmem : bs ∈ boolLists M.features.length) (hval : validOn M (assign M bs) = true)
    (hf : assign M bs f = false) :
    satAssuming M [(f, false)] = true := by
  rw [satAssuming, List.any_eq_true]
  exact ⟨bs, hmem, by simp [hval, hf]⟩

/-- C3 counterexample: the void one-feature model is well formed, yet its root
is reported both core and dead, so `core_features` and `dead_features` are not
disjoint on it and the claimed partition fails. -/
theorem core_dead_overlap_on_void_model :
    wellFormed mVoid = true ∧
      "r" ∈ coreFeatures mVoid ∧ "r" ∈ deadFeatures mVoid := by decide

/-- C3 amended: on every satisfiable Model the sets returned by
`core_features`, `dead_features` and `variant_features` are pairwise disjoint
and their union is the set of all features. -/
theorem core_dead_variant_partition (M : Model)
    (h : satisfiabilityTool M = true) :
    (∀ f, f ∈ coreFeatures M → f ∉ deadFeatures M) ∧
      (∀ f, f ∈ coreFeatures M → f ∉ variantFeatures M) ∧
      (∀ f, f ∈ deadFeatures M → f ∉ variantFeatures M) ∧
      (∀ f, f ∈ M.features ↔
        f ∈ coreFeatures M ∨ f ∈ deadFeatures M ∨ f ∈ variantFeatures M) := by
  obtain ⟨bs, hmem, hval⟩ := List.any_eq_true.mp h
  refine ⟨?_, ?_, ?_, ?_⟩
  · intro f hc hd
    rw [coreFeatures, List.mem_filter, isCore] at hc
    rw [deadFeatures, List.mem_filter, isDead] at hd
    have hcf : satAssuming M [(f, false)] = false := by
      simpa using hc.2
    have hdf : satAssuming M [(f, true)] = false := by
      simpa using hd.2
    cases hb : assign M bs f with
    | true =>
        rw [satAssuming_single_true M f bs hmem hval hb] at hdf
        simp at hdf
    | false =>
        rw [satAssuming_single_false M f bs hmem hval hb] at hcf
        simp at hcf
  · intro f hc hv
    rw [coreFeatures, List.mem_filter] at hc
    rw [variantFeatures, List.mem_filter] at hv
    have := hv.2
    rw [hc.2] at this
    simp at this
  · intro f hd hv
    rw [deadFeatures, List.mem_filter] at hd
    rw [variantFeatures, List.mem_filter] at hv
    have := hv.2
    rw [hd.2] at this
    simp at this
  · intro f
    constructor
    · intro hf
      cases hc : isCore M f with
      | true => exact Or.inl (List.mem_filter.mpr ⟨hf, hc⟩)
      | false =>
          cases hd : isDead M f with
          | true => exact Or.inr (Or.inl (List.mem_filter.mpr ⟨hf, hd⟩))
          | false =>
              refine Or.inr (Or.inr (List.mem_filter.mpr ⟨hf, ?_⟩))
              rw [hc, hd]
              rfl
    · rintro (hm | hm | hm) <;>
        · first
          | exact (List.mem_filter.mp hm).1

/-- C3 witness: the amended theorem instantiated at the optional-child
model. -/
theorem core_dead_variant_partition_witness :
    satisfiabilityTool mOpt = true ∧
      ((∀ f, f ∈ coreFeatures mOpt → f ∉ deadFeatures mOpt) ∧
        (∀ f, f ∈ coreFeatures mOpt → f ∉ variantFeatures mOpt) ∧
        (∀ f, f ∈ deadFeatures mOpt → f ∉ variantFeatures mOpt) ∧
        (∀ f, f ∈ mOpt.features ↔
          f ∈ coreFeatures mOpt ∨ f ∈ deadFeatures mOpt ∨ f ∈ variantFeatures mOpt)) :=
  ⟨by decide, core_dead_variant_partition mOpt (by decide)⟩

theorem countAssuming_single_eq_numSelecting (M : Model) (f : String) :
    countAssuming M [(f, true)] = numSelecting M f := by
  rw [countAssuming, numSelecting]
  congr 1
  apply List.filter_congr
  intro bs _
  simp

/-- C4 counterexample: on the well-formed three-way alternative model the
tool's value for feature A is the 4-decimal rounding 3333/10000, not the exact
ratio 1/3 of selecting configurations to all configurations. -/
theorem fip_rounding_breaks_exact_ratio :
    wellFormed mAlt = true ∧ 0 < configurationsNumber mAlt ∧
      fipTool mAlt "A" ≠ (numSelecting mAlt "A" : ℚ) / (configurationsNumber mAlt : ℚ) := by
  refine ⟨by decide, by decide, ?_⟩
  have h1 : countAssuming mAlt [("A", true)] = 1 := by decide
  have h2 : configurationsNumber mAlt = 3 := by decide
  have h3 : numSelecting mAlt "A" = 1 := by decide
  rw [fipTool, fipEngine, h1, h2, h3]
  norm_num [roundTo, rndHalfEven]

/-- C4 amended: for every well-formed Model with at least one configuration,
the `feature_inclusion_probability` tool returns, for each feature, the ratio
of selecting configurations to all configurations rounded to 4 decimal
places. -/
theorem fip_tool_eq_rounded_ratio (M : Model) (f : String)
    (h : wellFormed M = true) (hc : 0 < configurationsNumber M) :
    fipTool M f = roundTo 4 ((numSelecting M f : ℚ) / (configurationsNumber M : ℚ)) := by
  rw [fipTool, fipEngine, countAssuming_single_eq_numSelecting]

/-- C4 witness: the amended theorem instantiated at the optional-child model
and its feature X. -/
theorem fip_tool_eq_rounded_ratio_witness :
    wellFormed mOpt = true ∧ 0 < configurationsNumber mOpt ∧
      fipTool mOpt "X" =
        roundTo 4 ((numSelecting mOpt "X" : ℚ) / (configurationsNumber mOpt : ℚ)) :=
  ⟨by decide, by decide, fip_tool_eq_rounded_ratio mOpt "X" (by decide) (by decide)⟩

/-- C5 counterexample: on the one-feature model with no selected features the
tool answers true (the empty partial selection extends to the valid
configuration selecting the root), while the claimed closed-configuration
semantics, which fixes every unmentioned feature to false, answers false. -/
theorem satisfiable_configuration_not_closed :
    satisfiableConfigurationTool mRoot [] = true ∧
      satisfiableConfigurationClosedSpec mRoot [] = false := by decide

/-- C5 amended: the `satisfiable_configuration` tool calls the engine with the
full-configuration flag set to false, so it fixes each selected feature to
true, leaves every unmentioned feature unconstrained, and returns true exactly
when some valid configuration selects all the selected features. -/
theorem satisfiable_configuration_partial_semantics (M : Model) (sel : List String) :
    satisfiableConfigurationTool M sel = true ↔
      ∃ bs ∈ validConfigs M, ∀ f ∈ sel, assign M bs f = true := by
  show satAssuming M (sel.map (fun f => (f, true))) = true ↔ _
  rw [satAssuming]
  constructor
  · intro h
    obtain ⟨bs, hmem, hp⟩ := List.any_eq_true.mp h
    rw [Bool.and_eq_true] at hp
    refine ⟨bs, (mem_validConfigs_iff M bs).mpr ⟨hmem, hp.1⟩, ?_⟩
    intro f hf
    have := List.all_eq_true.mp hp.2 (f, true) (List.mem_map.mpr ⟨f, hf, rfl⟩)
    simpa using this
  · rintro ⟨bs, hbs, hsel⟩
    obtain ⟨hmem, hval⟩ := (mem_validConfigs_iff M bs).mp hbs
    apply List.any_eq_true.mpr
    refine ⟨bs, hmem, ?_⟩
    rw [Bool.and_eq_true]
    refine ⟨hval, List.all_eq_true.mpr ?_⟩
    intro p hp
    obtain ⟨g2, hg2, heq⟩ := List.mem_map.mp hp
    rw [← heq]
    simpa using hsel g2 hg2

/-- C6: the `estimated_number_of_configurations` tool returns the product of
the combinatorial choice counts of the tree's group constructs, and the result
never depends on the cross-tree constraints. -/
theorem estimated_configurations_is_tree_product (M : Model)
    (h : wellFormed M = true) :
    estimatedNumberOfConfigurations M = (M.groups.map groupChoiceCount).prod ∧
      ∀ cs, estimatedNumberOfConfigurations
          { root := M.root, features := M.features, groups := M.groups, constraints := cs }
        = estimatedNumberOfConfigurations M := by
  constructor
  · rw [estimatedNumberOfConfigurations, List.prod_eq_foldl, List.foldl_map]
  · intro cs
    rfl

/-- C6 witness: the theorem instantiated at the model with one construct of
each kind, where the product is 1 * 2 * (2 ^ 2 - 1) * 2 = 12. -/
theorem estimated_configurations_is_tree_product_witness :
    wellFormed mEst = true ∧ estimatedNumberOfConfigurations mEst = 12 ∧
      (estimatedNumberOfConfigurations mEst = (mEst.groups.map groupChoiceCount).prod ∧
        ∀ cs, estimatedNumberOfConfigurations
            { root := mEst.root, features := mEst.features, groups := mEst.groups,
              constraints := cs }
          = estimatedNumberOfConfigurations mEst) :=
  ⟨by decide, by decide, estimated_configurations_is_tree_product mEst (by decide)⟩

/-- C7: on the optional-child model the `commonality` tool returns the
feature's inclusion probability rounded to 2 decimal places, the value 1/2 on
the 0-1 scale, while the specified percentage form of the same frequency is
50; the tool's output is not on the 0-100 scale its own description and the
specification state. -/
theorem commonality_not_a_percentage :
    commonalityTool mOpt "X" = some ((1 : ℚ) / 2) ∧
      commonalityPercentSpec mOpt "X" = 50 ∧ ((1 : ℚ) / 2) ≠ 50 := by
  have h1 : countAssuming mOpt [("X", true)] = 1 := by decide
  have h2 : configurationsNumber mOpt = 2 := by decide
  refine ⟨?_, ?_, by norm_num⟩
  · rw [commonalityTool, if_pos (by decide : mOpt.features.contains "X" = true)]
    rw [fipEngine, h1, h2]
    norm_num [roundTo, rndHalfEven]
  · rw [commonalityPercentSpec, fipEngine, h1, h2]
    norm_num

/-- The UnknownFeatureError produced when a constraint or query names the
absent feature Z (spec section 7, Scenario C). -/
def unknownFeatureZ : PyError :=
  { kind := "UnknownFeatureError", msg := "The feature Z does not exist" }

/-- C8 counterexample: the error surfaced for an UnknownFeatureError raised
inside the commonality pipeline is a generic Exception with a prefixed
message, so neither its kind nor its message equals the original error's —
it is not surfaced verbatim. -/
theorem unknown_feature_error_rewrapped :
    toolCatch "Failed to compute commonality"
        (runFacadeOperation "FeatureInclusionProbability"
          (Except.error unknownFeatureZ : Except PyError Unit))
      = Except.error
          { kind := "Exception",
            msg := "Failed to compute commonality: Error executing FeatureInclusionProbability: The feature Z does not exist" } ∧
      ¬("Exception" = unknownFeatureZ.kind ∧
          "Failed to compute commonality: Error executing FeatureInclusionProbability: The feature Z does not exist"
            = unknownFeatureZ.msg) :=
  ⟨rfl, by decide⟩

/-- C8 amended: an error raised by the underlying operation, an
UnknownFeatureError included, is rewrapped twice on its way to the caller —
`_run_facade_operation` re-raises it as a generic Exception prefixed with
`Error executing <operation>: `, and the tool's catch block prefixes its own
failure text — so the caller receives a generic Exception whose message embeds
the original message after the two prefixes rather than the original error
verbatim. -/
theorem facade_error_double_rewrapping (tm op : String) (e : PyError) :
    toolCatch tm (runFacadeOperation op (Except.error e : Except PyError Unit))
      = Except.error
          { kind := "Exception",
            msg := tm ++ ": " ++ ("Error executing " ++ op ++ ": " ++ e.msg) } :=
  rfl

theorem configurationsTool_foldl_eq (res : List PyValue)
    (acc : List (List (String × Bool))) :
    res.foldl
        (fun acc v =>
          match v with
          | PyValue.config es => acc ++ [es]
          | PyValue.other _ => acc)
        acc
      = acc ++ res.filterMap
          (fun v =>
            match v with
            | PyValue.config es => some es
            | PyValue.other _ => none) := by
  induction res generalizing acc with
  | nil => simp
  | cons v vs ih =>
      cases v with
      | config es => simp [List.foldl_cons, List.filterMap_cons, ih]
      | other t => simp [List.foldl_cons, List.filterMap_cons, ih]

/-- C9: the `configurations` tool keeps exactly the Configuration elements of
the underlying result, in order, as their feature-to-boolean mappings; every
element of another type is dropped, the output is never longer than the
input, and on an input holding a non-Configuration element it is strictly
shorter. -/
theorem configurations_keeps_only_configuration_elements (res : List PyValue) :
    configurationsTool res
        = res.filterMap
            (fun v =>
              match v with
              | PyValue.config es => some es
              | PyValue.other _ => none) ∧
      (configurationsTool res).length ≤ res.length ∧
      (configurationsTool [PyValue.other "progress-string"]).length
        < ([PyValue.other "progress-string"] : List PyValue).length := by
  have h := configurationsTool_foldl_eq res []
  rw [List.nil_append] at h
  refine ⟨h, ?_, by decide⟩
  rw [configurationsTool, h]
  exact List.length_filterMap_le _ _

/-- C10 counterexample: the underlying values 1/250 = 0.004 and
3/500 = 0.006 lie closer together than the half-unit 1/200 = 0.005 of
2-decimal rounding, yet the `variability` post-processing distinguishes them,
returning 0 and 1/100; so values closer than the half-unit are not always
indistinguishable at the public interface. -/
theorem rounding_half_unit_still_distinguishes :
    (3 : ℚ) / 500 - 1 / 250 < 1 / 200 ∧ (0 : ℚ) < 3 / 500 - 1 / 250 ∧
      variabilityRound (1 / 250) ≠ variabilityRound (3 / 500) := by
  refine ⟨by norm_num, by norm_num, ?_⟩
  have h1 : variabilityRound (1 / 250) = 0 := by
    norm_num [variabilityRound, roundTo, rndHalfEven]
  have h2 : variabilityRound (3 / 500) = 1 / 100 := by
    norm_num [variabilityRound, roundTo, rndHalfEven]
  rw [h1, h2]
  norm_num

/-- C10 amended: `average_branching_factor`, `commonality` and `variability`
return the underlying value rounded to 2 decimal places and
`feature_inclusion_probability` and `homogeneity` to 4 decimal places, so
every returned value lies on the corresponding grid of integer multiples of
1/100 or 1/10000; underlying values in the same rounding cell are
indistinguishable, though values closer than the half-unit may still be
distinguished when they straddle a cell boundary. -/
theorem rounding_precisions_and_grid (r : ℚ) :
    abfRound r = roundTo 2 r ∧ commonalityRound r = roundTo 2 r ∧
      variabilityRound r = roundTo 2 r ∧ fipRound r = roundTo 4 r ∧
      homogeneityRound r = roundTo 4 r ∧
      (∃ z : ℤ, abfRound r = (z : ℚ) / 100) ∧
      (∃ z : ℤ, commonalityRound r = (z : ℚ) / 100) ∧
      (∃ z : ℤ, variabilityRound r = (z : ℚ) / 100) ∧
      (∃ z : ℤ, fipRound r = (z : ℚ) / 10000) ∧
      (∃ z : ℤ, homogeneityRound r = (z : ℚ) / 10000) := by
  have h2 : (10 : ℚ) ^ 2 = 100 := by norm_num
  have h4 : (10 : ℚ) ^ 4 = 10000 := by norm_num
  refine ⟨rfl, rfl, rfl, rfl, rfl,
    ⟨rndHalfEven (r * 10 ^ 2), ?_⟩, ⟨rndHalfEven (r * 10 ^ 2), ?_⟩,
    ⟨rndHalfEven (r * 10 ^ 2), ?_⟩, ⟨rndHalfEven (r * 10 ^ 4), ?_⟩,
    ⟨rndHalfEven (r * 10 ^ 4), ?_⟩⟩
  · rw [abfRound, roundTo, h2]
  · rw [commonalityRound, roundTo, h2]
  · rw [variabilityRound, roundTo, h2]
  · rw [fipRound, roundTo, h4]
  · rw [homogeneityRound, roundTo, h4]

end FM
